import Mathlib

/-!
Verification of the booking API layer (`src/api.py`) of the AI-bot
repository against its natural-language specification.

The file embeds the endpoint handlers of `api.py` as pure Lean functions.
The handlers delegate to a `BookingManager` (module `booking_manager.py`,
which is not among the sources); its results enter the embedded handlers
as explicit parameters: a manager call that returns a human-readable
message or raises is modelled as `Except String String` (error message or
result text), and the manager's in-memory `bookings` dictionary is
modelled as an insertion-ordered association list.  Operations of the
Query Engine whose code is absent are modelled from the spec and marked
as such in their doc comments.

Python string operations used by `api.py` are embedded over `List Char`
(ASCII inputs; Python `in`, `split`, `strip`, `lower`, `int()`, `float()`
on simple decimal literals).  Floating point percentages are modelled by
rationals.
-/

set_option maxRecDepth 4096

namespace AIBot

/-- Python `needle in haystack` prefix step: does `p` start the list `l`. -/
def chStarts : List Char → List Char → Bool
  | [], _ => true
  | _ :: _, [] => false
  | a :: p, b :: l => a == b && chStarts p l

/-- Python substring containment `p in l` over character lists. -/
def chHas (l p : List Char) : Bool :=
  match l with
  | [] => chStarts p []
  | _ :: t => chStarts p l || chHas t p

/-- Python `needle in haystack` on strings. -/
def strContains (haystack needle : String) : Bool :=
  chHas haystack.data needle.data

/-- Python `str.lower()` (ASCII). -/
def strLower (s : String) : String :=
  String.mk (s.data.map Char.toLower)

/-- Python `s.split(sep)` for a one-character separator: splits at every
occurrence, keeping empty pieces (`"".split(c) = [""]`). -/
def splitBy (p : Char → Bool) : List Char → List (List Char)
  | [] => [[]]
  | x :: t =>
    if p x then
      [] :: splitBy p t
    else
      match splitBy p t with
      | [] => [[x]]
      | h :: r => (x :: h) :: r

/-- Python `s.strip()` (ASCII whitespace). -/
def trimChars (l : List Char) : List Char :=
  ((l.dropWhile Char.isWhitespace).reverse.dropWhile Char.isWhitespace).reverse

/-- Python `s.split()`: split on whitespace runs, dropping empty pieces. -/
def splitWs (l : List Char) : List (List Char) :=
  (splitBy Char.isWhitespace l).filter (fun w => !w.isEmpty)

/-- Accumulator loop for reading a decimal numeral. -/
def digitsToNatAux (acc : Nat) : List Char → Option Nat
  | [] => some acc
  | c :: t => if c.isDigit then digitsToNatAux (10 * acc + (c.toNat - 48)) t else none

/-- A non-empty all-digit list read as a natural number. -/
def digitsToNat : List Char → Option Nat
  | [] => none
  | c :: t => digitsToNatAux 0 (c :: t)

/-- A possibly empty all-digit list read as a natural number (empty gives 0);
used for the integer and fractional parts of a decimal literal. -/
def digitsToNatW : List Char → Option Nat
  | l => digitsToNatAux 0 l

/-- Python `int(s)` on a stripped optional-sign decimal literal
(no underscores, no base prefixes: the only forms the API emits). -/
def pyInt (l : List Char) : Option Int :=
  match trimChars l with
  | '-' :: r => (digitsToNat r).map (fun n => -(n : Int))
  | '+' :: r => (digitsToNat r).map (fun n => (n : Int))
  | t => (digitsToNat t).map (fun n => (n : Int))

/-- Value of an unsigned decimal literal split at the dot:
integer part plus fractional part scaled down. -/
def decParts (ip fp : List Char) : Option ℚ :=
  if ip.isEmpty && fp.isEmpty then none
  else
    match digitsToNatW ip, digitsToNatW fp with
    | some a, some b => some (mkRat (a * 10 ^ fp.length + b) (10 ^ fp.length))
    | _, _ => none

/-- Python `float(s)` on a stripped optional-sign plain decimal literal
(`"60.0"`, `"60."`, `".5"`, `"60"`; exponents are never emitted by the
manager), with the value modelled as a rational. -/
def pyFloat (l : List Char) : Option ℚ :=
  let body := fun (t : List Char) =>
    match splitBy (fun c => c == '.') t with
    | [ip] => decParts ip []
    | [ip, fp] => decParts ip fp
    | _ => none
  match trimChars l with
  | '-' :: r => (body r).map (fun q => -q)
  | '+' :: r => body r
  | t => body t

/-- The regular-expression step of `re.search(r'BK\d{4}', s)`: match
`BK` plus four digits at the head of the list. -/
def bkAt : List Char → Option String
  | b :: k :: c1 :: c2 :: c3 :: c4 :: _ =>
    if b == 'B' && k == 'K' &&
        c1.isDigit && c2.isDigit && c3.isDigit && c4.isDigit then
      some (String.mk [b, k, c1, c2, c3, c4])
    else none
  | _ => none

/-- `re.search(r'BK\d{4}', s).group()`: the leftmost match of `BK` plus
four digits, scanning left to right. -/
def bkSearch : List Char → Option String
  | [] => none
  | x :: t =>
    match bkAt (x :: t) with
    | some s => some s
    | none => bkSearch t

/-- First-match `lookup` on an insertion-ordered association list,
modelling Python `dict.get` / `in` on the manager's `bookings` dict. -/
def lookupId (ledger : List (String × α)) (id : String) : Option α :=
  match ledger with
  | [] => none
  | (k, v) :: t => if k == id then some v else lookupId t id

/-- A stored booking record of the manager's `bookings` mapping, with the
fixed field shape the spec assigns to `Booking` (the Python side stores a
dict; the endpoints read exactly these keys via `.get`). -/
structure Details where
  name : String
  contact : String
  date : String
  time : String
  guests : Nat
  special_requirements : String
  status : String
  created_at : String
  modified_at : Option String
  cancelled_at : Option String
deriving DecidableEq

/-- The pydantic `BookingRequest` of the create endpoint. -/
structure BookingRequest where
  name : String
  contact : String
  date : String
  time : String
  guests : Int
  special_requirements : Option String
deriving DecidableEq

/-- The `booking_data` dict the create endpoint hands to
`booking_manager.create_booking`: every value a string. -/
structure BookingFields where
  name : String
  contact : String
  date : String
  time : String
  guests : String
  special_requirements : String
deriving DecidableEq

/-- The pydantic `BookingResponse` (fields absent from a constructor call
default to null/None). -/
structure BookingResponse where
  booking_id : Option String := none
  success : Bool
  message : String
  booking_data : Option Details := none
  error : Option String := none
deriving DecidableEq

/-- The pydantic `ChatResponse`. -/
structure ChatResponse where
  response : String
  session_id : Option String
  success : Bool
  error : Option String := none
deriving DecidableEq

/-- The pydantic `BookingListResponse`; each element of `bookings` is a
`BookingDetails` carrying the booking id next to the record, modelled as
the pair. -/
structure BookingListResponse where
  bookings : List (String × Details)
  total_count : Nat
  success : Bool := true
  error : Option String := none
deriving DecidableEq

/-- The pydantic `StatsResponse` (percentage as a rational). -/
structure StatsResponse where
  total_bookings : Int
  confirmed_bookings : Int
  cancelled_bookings : Int
  total_guests : Int
  today_bookings : Int
  success_rate : ℚ
  success : Bool := true
  error : Option String := none
deriving DecidableEq

/-- `POST /chat` (`chat_with_bot`): the utterance is handed to
`booking_manager.process_user_input`; the session id is the request's
one if truthy, else a freshly generated UUID string.  An exception from
processing is caught and answered with the fixed apologetic reply,
`success=False` and the request's original session id.  (The monitoring
calls and the session bookkeeping dict touch no response field and are
elided.) -/
def chat_with_bot (message : String) (session_id : Option String)
    (generated_id : String) (process : String → Except String String) :
    ChatResponse :=
  let sid := match session_id with
    | some s => if s == "" then generated_id else s
    | none => generated_id
  match process message with
  | Except.ok response_text =>
    { response := response_text, session_id := some sid, success := true }
  | Except.error e =>
    { response := "I'm sorry, I encountered an error processing your request. Please try again."
      session_id := session_id, success := false, error := some e }

/-- The `booking_data` dict built by the create endpoint from the request:
`guests` is rendered to a decimal string with Python `str`, and a falsy
`special_requirements` (absent or empty) becomes the empty string. -/
def bookingDataOf (request : BookingRequest) : BookingFields :=
  { name := request.name
    contact := request.contact
    date := request.date
    time := request.time
    guests := toString request.guests
    special_requirements := match request.special_requirements with
      | some s => s
      | none => "" }

/-- `POST /bookings` (`create_booking`): hands `bookingDataOf request` to
`booking_manager.create_booking`, then inspects the returned prose:
`success` is substring containment of the fixed phrase, `booking_id` is
the leftmost `BK` plus four digits found by `re.search` (searched only
when the phrase is present), and `booking_data` is the manager dict entry
for that id.  A raised exception yields a failure response. -/
def create_booking (request : BookingRequest)
    (manager : BookingFields → Except String String)
    (bookings : List (String × Details)) : BookingResponse :=
  match manager (bookingDataOf request) with
  | Except.ok result =>
    let booking_id :=
      if strContains result "Booking created successfully" then
        bkSearch result.data
      else none
    { booking_id := booking_id
      success := strContains result "Booking created successfully"
      message := result
      booking_data := match booking_id with
        | some i => lookupId bookings i
        | none => none }
  | Except.error e =>
    { success := false, message := "Error creating booking: " ++ e
      error := some e }

/-- The filter step of `GET /bookings`: a booking is skipped when a truthy
`status` filter mismatches its status case-insensitively, or a truthy
`date` filter differs from its date (Python `if status and ...`, so a
`None` or empty-string filter imposes nothing). -/
def passFilters (status date : Option String) (d : Details) : Bool :=
  (match status with
    | none => true
    | some s => s == "" || (strLower d.status == strLower s)) &&
  (match date with
    | none => true
    | some dt => dt == "" || (d.date == dt))

/-- `GET /bookings` (`list_bookings`): iterates the manager's `bookings`
dict in insertion order, keeps entries passing the optional filters, and
reports them with their count. -/
def list_bookings (ledger : List (String × Details))
    (status date : Option String) : BookingListResponse :=
  let kept := ledger.filter (fun b => passFilters status date b.2)
  { bookings := kept, total_count := kept.length }

/-- `GET /bookings/{booking_id}` (`get_booking`): a pure read of the
manager's dict; absent ids get a structured not-found failure response. -/
def get_booking (ledger : List (String × Details)) (booking_id : String) :
    BookingResponse :=
  match lookupId ledger booking_id with
  | none =>
    { success := false
      message := "Booking " ++ booking_id ++ " not found"
      error := some "Booking not found" }
  | some details =>
    { booking_id := some booking_id
      success := true
      message := "Booking details retrieved successfully"
      booking_data := some details }

/-- `DELETE /bookings/{booking_id}` (`cancel_booking`): calls
`booking_manager.cancel_booking` and reports `success` exactly when the
lowercased prose result contains `"cancelled successfully"`; a raised
exception yields a failure response. -/
def cancel_booking (booking_id : String)
    (managerResult : Except String String) : BookingResponse :=
  match managerResult with
  | Except.ok result =>
    { booking_id := some booking_id
      success := strContains (strLower result) "cancelled successfully"
      message := result }
  | Except.error e =>
    { success := false, message := "Error cancelling booking: " ++ e
      error := some e }

/-- Python `line.split(':')[1]`: fails (IndexError) when the line has no
colon. -/
def colonPart1 (line : List Char) : Except String (List Char) :=
  match (splitBy (fun c => c == ':') line).get? 1 with
  | some p => Except.ok p
  | none => Except.error "list index out of range"

/-- Python `line.split()[0]`: fails (IndexError) on an all-whitespace
remainder. -/
def firstWord (l : List Char) : Except String (List Char) :=
  match splitWs l with
  | [] => Except.error "list index out of range"
  | w :: _ => Except.ok w

/-- Python `int(s)` raising `ValueError` on a malformed literal. -/
def pyIntE (l : List Char) : Except String Int :=
  match pyInt l with
  | some n => Except.ok n
  | none => Except.error "invalid literal for int()"

/-- Python `float(s)` raising `ValueError` on a malformed literal. -/
def pyFloatE (l : List Char) : Except String ℚ :=
  match pyFloat l with
  | some q => Except.ok q
  | none => Except.error "could not convert string to float"

/-- An ASCII apostrophe. -/
def apos : String := String.mk [Char.ofNat 39]

/-- The label of the today line of the rendered statistics. -/
def todayLabel : String := "Today" ++ apos ++ "s Bookings:"

/-- One iteration of the stats-parsing loop of `GET /stats`: the
`if`/`elif` chain that recognises a line by a contained label and reads
the number back out of the text (any raised IndexError/ValueError aborts
the whole parse). -/
def statsLineStep (st : StatsResponse) (l : List Char) : Except String StatsResponse :=
  if chHas l ("Total Bookings:").data then do
    let p ← colonPart1 l
    let n ← pyIntE (trimChars p)
    Except.ok { st with total_bookings := n }
  else if chHas l ("Confirmed:").data then do
    let p ← colonPart1 l
    let w ← firstWord p
    let n ← pyIntE w
    Except.ok { st with confirmed_bookings := n }
  else if chHas l ("Cancelled:").data then do
    let p ← colonPart1 l
    let w ← firstWord p
    let n ← pyIntE w
    Except.ok { st with cancelled_bookings := n }
  else if chHas l ("Total Guests").data then do
    let p ← colonPart1 l
    let n ← pyIntE (trimChars p)
    Except.ok { st with total_guests := n }
  else if chHas l todayLabel.data then do
    let p ← colonPart1 l
    let n ← pyIntE (trimChars p)
    Except.ok { st with today_bookings := n }
  else if chHas l ("Success Rate:").data then do
    let p ← colonPart1 l
    let q ← pyFloatE ((trimChars p).filter (fun c => c != '%'))
    Except.ok { st with success_rate := q }
  else
    Except.ok st

/-- The all-zero stats dict the endpoint starts from. -/
def zeroStats : StatsResponse :=
  { total_bookings := 0, confirmed_bookings := 0, cancelled_bookings := 0
    total_guests := 0, today_bookings := 0, success_rate := 0 }

/-- `GET /stats` (`get_stats`): calls `booking_manager.get_booking_stats`,
then rebuilds every number by parsing the returned formatted text: if the
text contains `"Booking Statistics"`, each line after the first is fed to
the label-matching chain; otherwise (and on any exception) the zeros
survive. -/
def get_stats (managerResult : Except String String) : StatsResponse :=
  match managerResult with
  | Except.error e => { zeroStats with success := false, error := some e }
  | Except.ok result =>
    if strContains result "Booking Statistics" then
      match ((splitBy (fun c => c == '\n') result.data).drop 1).foldlM
          statsLineStep zeroStats with
      | Except.ok st => st
      | Except.error e => { zeroStats with success := false, error := some e }
    else zeroStats

/-- Modelled from the spec: `search` of the Query Engine
(`booking_manager.search_bookings`, a module absent from the sources):
case-insensitive substring match of the query against `name`, `contact`,
`date`, `time` and `special_requirements`, in ledger insertion order; an
empty query returns an empty result, not all bookings. -/
def searchLedger (ledger : List (String × Details)) (query : String) :
    List (String × Details) :=
  if query = "" then []
  else
    ledger.filter (fun b =>
      strContains (strLower b.2.name) (strLower query) ||
      strContains (strLower b.2.contact) (strLower query) ||
      strContains (strLower b.2.date) (strLower query) ||
      strContains (strLower b.2.time) (strLower query) ||
      strContains (strLower b.2.special_requirements) (strLower query))

/-- The structured `Statistics` record of the spec's Query Engine. -/
structure Statistics where
  total : Nat
  confirmed_count : Nat
  cancelled_count : Nat
  total_guests : Nat
  today_count : Nat
  success_rate : ℚ
deriving DecidableEq

/-- Modelled from the spec: `stats` of the Query Engine
(`booking_manager.get_booking_stats`, a module absent from the sources):
counts over the full ledger, guests summed over confirmed bookings only,
today given as the current calendar date string, and `success_rate` the
confirmed share as a percentage, 0 on an empty ledger. -/
def stats (ledger : List (String × Details)) (today : String) : Statistics :=
  let total := ledger.length
  let confirmedBookings := ledger.filter (fun b => b.2.status == "confirmed")
  let confirmed := confirmedBookings.length
  let cancelled := (ledger.filter (fun b => b.2.status == "cancelled")).length
  let guests := (confirmedBookings.map (fun b => b.2.guests)).sum
  let todayCount := (ledger.filter (fun b => b.2.date == today)).length
  { total := total, confirmed_count := confirmed, cancelled_count := cancelled
    total_guests := guests, today_count := todayCount
    success_rate := if total = 0 then 0 else (confirmed : ℚ) / (total : ℚ) * 100 }

/-- The spec's end-to-end example booking record. -/
def demoDetails : Details :=
  { name := "Alice", contact := "a@x.com", date := "2024-06-01", time := "19:00"
    guests := 2, special_requirements := "", status := "confirmed"
    created_at := "2024-05-30 10:00:00", modified_at := none, cancelled_at := none }

/-- A one-entry ledger holding the example booking. -/
def demoLedger : List (String × Details) := [("BK0001", demoDetails)]

/-- The spec's end-to-end example create request. -/
def demoRequest : BookingRequest :=
  { name := "Alice", contact := "a@x.com", date := "2024-06-01", time := "19:00"
    guests := 2, special_requirements := none }

/-- A manager stub whose creation call returns the given prose message. -/
def mgrOk (msg : String) : BookingFields → Except String String :=
  fun _ => Except.ok msg

/-- A well-formed rendering of the manager's statistics text. -/
def demoStatsText : String :=
  "Booking Statistics:\nTotal Bookings: 5\nConfirmed: 3 bookings\n" ++
  "Cancelled: 2 bookings\nTotal Guests: 7\n" ++ todayLabel ++
  " 1\nSuccess Rate: 60.0%"

theorem chStarts_chHas (l p : List Char) (h : chStarts p l = true) :
    chHas l p = true := by
  cases l with
  | nil => simpa [chHas] using h
  | cons x t => simp [chHas, h]

theorem bkAt_found (l : List Char) (s : String) (h : bkAt l = some s) :
    chStarts s.data l = true ∧
      ∃ a b c d : Char,
        (a.isDigit && b.isDigit && c.isDigit && d.isDigit) = true ∧
        s.data = ['B', 'K', a, b, c, d] := by
  match l with
  | [] => simp [bkAt] at h
  | [_] => simp [bkAt] at h
  | [_, _] => simp [bkAt] at h
  | [_, _, _] => simp [bkAt] at h
  | [_, _, _, _] => simp [bkAt] at h
  | [_, _, _, _, _] => simp [bkAt] at h
  | x :: y :: a :: b :: c :: d :: rest =>
    rw [bkAt] at h
    by_cases hc : (x == 'B' && y == 'K' &&
        a.isDigit && b.isDigit && c.isDigit && d.isDigit) = true
    · rw [if_pos hc] at h
      have hx : x = 'B' := by
        have := hc; simp only [Bool.and_eq_true, beq_iff_eq] at this
        exact this.1.1.1.1.1
      have hy : y = 'K' := by
        have := hc; simp only [Bool.and_eq_true, beq_iff_eq] at this
        exact this.1.1.1.1.2
      have hd : (a.isDigit && b.isDigit && c.isDigit && d.isDigit) = true := by
        have := hc; simp only [Bool.and_eq_true] at this
        simp [this.1.1.1.2, this.1.1.2, this.1.2, this.2]
      subst hx; subst hy
      have hs : s = String.mk ['B', 'K', a, b, c, d] := by
        injection h with h; exact h.symm
      subst hs
      refine ⟨?_, a, b, c, d, hd, rfl⟩
      simp [chStarts]
    · rw [if_neg hc] at h; cases h

theorem bkSearch_found (l : List Char) (s : String) (h : bkSearch l = some s) :
    chHas l s.data = true ∧
      ∃ a b c d : Char,
        (a.isDigit && b.isDigit && c.isDigit && d.isDigit) = true ∧
        s.data = ['B', 'K', a, b, c, d] := by
  induction l with
  | nil => simp [bkSearch] at h
  | cons x t ih =>
    rw [bkSearch] at h
    cases hb : bkAt (x :: t) with
    | some s0 =>
      rw [hb] at h
      have hs : s0 = s := by injection h
      subst hs
      obtain ⟨h1, h2⟩ := bkAt_found (x :: t) s0 hb
      exact ⟨chStarts_chHas _ _ h1, h2⟩
    | none =>
      rw [hb] at h
      obtain ⟨h1, h2⟩ := ih h
      exact ⟨by simp [chHas, h1], h2⟩

theorem passFilters_iff (status date : Option String) (d : Details) :
    passFilters status date d = true ↔
      ((status = none ∨ status = some "" ∨
          ∃ s, status = some s ∧ strLower d.status = strLower s)
       ∧ (date = none ∨ date = some "" ∨
          ∃ dt, date = some dt ∧ d.date = dt)) := by
  cases status with
  | none =>
    cases date with
    | none => simp [passFilters]
    | some dt =>
      by_cases hdt : dt = ""
      · subst hdt; simp [passFilters]
      · simp [passFilters, hdt]
  | some s =>
    cases date with
    | none =>
      by_cases hs : s = ""
      · subst hs; simp [passFilters]
      · simp [passFilters, hs]
    | some dt =>
      by_cases hs : s = ""
      · by_cases hdt : dt = ""
        · subst hs; subst hdt; simp [passFilters]
        · subst hs; simp [passFilters, hdt]
      · by_cases hdt : dt = ""
        · subst hdt; simp [passFilters, hs]
        · simp [passFilters, hs, hdt]

/-- C1 counterexample: the claim that cancellation success or failure is
never determined by matching substrings of a human-readable message fails
on `cancel_booking`: two manager messages meaning the same thing (British
and American spelling of cancelled) flip the success flag, and the
not-found and already-cancelled failure messages produce responses that
are structurally identical apart from the prose. -/
theorem cancel_success_from_prose_cex :
    (cancel_booking "BK0001"
      (Except.ok "Booking BK0001 cancelled successfully")).success = true
  ∧ (cancel_booking "BK0001"
      (Except.ok "Booking BK0001 canceled successfully")).success = false
  ∧ ((cancel_booking "BK0001" (Except.ok "Booking BK0001 not found")).success
      = (cancel_booking "BK0001"
          (Except.ok "Booking BK0001 is already cancelled")).success
     ∧ (cancel_booking "BK0001" (Except.ok "Booking BK0001 not found")).booking_id
      = (cancel_booking "BK0001"
          (Except.ok "Booking BK0001 is already cancelled")).booking_id
     ∧ (cancel_booking "BK0001" (Except.ok "Booking BK0001 not found")).error
      = (cancel_booking "BK0001"
          (Except.ok "Booking BK0001 is already cancelled")).error) := by
  decide

/-- C1 (amended): the cancel endpoint reports a Boolean success flag
computed by substring-matching the lowercased manager message against
the phrase cancelled successfully; two messages agreeing on that
substring test get responses that differ at most in the prose message,
so `NotFoundError` and `AlreadyCancelledError` are not structurally
distinguished. -/
theorem cancel_success_is_substring_match (id result : String) :
    (cancel_booking id (Except.ok result)).success
      = strContains (strLower result) "cancelled successfully"
  ∧ ∀ m1 m2 : String,
      strContains (strLower m1) "cancelled successfully"
        = strContains (strLower m2) "cancelled successfully" →
      ((cancel_booking id (Except.ok m1)).success
          = (cancel_booking id (Except.ok m2)).success
       ∧ (cancel_booking id (Except.ok m1)).booking_id
          = (cancel_booking id (Except.ok m2)).booking_id
       ∧ (cancel_booking id (Except.ok m1)).booking_data
          = (cancel_booking id (Except.ok m2)).booking_data
       ∧ (cancel_booking id (Except.ok m1)).error
          = (cancel_booking id (Except.ok m2)).error) := by
  refine ⟨rfl, ?_⟩
  intro m1 m2 h
  exact ⟨h, rfl, rfl, rfl⟩

/-- C1 witness: `cancel_success_is_substring_match` applied to concrete
messages. -/
theorem cancel_success_is_substring_match_w :
    (cancel_booking "BK0001"
        (Except.ok "Booking BK0001 cancelled successfully")).success
      = strContains (strLower "Booking BK0001 cancelled successfully")
          "cancelled successfully"
  ∧ (cancel_booking "BK0001" (Except.ok "Booking BK0001 not found")).success
      = (cancel_booking "BK0001"
          (Except.ok "Booking BK0001 is already cancelled")).success := by
  have h := cancel_success_is_substring_match "BK0001"
    "Booking BK0001 cancelled successfully"
  exact ⟨h.1, (h.2 "Booking BK0001 not found"
    "Booking BK0001 is already cancelled" (by decide)).1⟩

/-- C2 counterexample: the claim that a new booking identifier reaches the
caller as a structured value and is never recovered by pattern-matching
over a prose message fails on `create_booking`: the identifier in the
response is exactly the result of the regex search over the prose, and a
prose-level change (one inserted space) makes the identifier disappear
while the message still reports success. -/
theorem create_id_from_regex_cex :
    (create_booking demoRequest
      (mgrOk "Booking created successfully! Your ID: BK0042")
      demoLedger).booking_id = some "BK0042"
  ∧ (create_booking demoRequest
      (mgrOk "Booking created successfully! Your ID: BK 0042")
      demoLedger).booking_id = none
  ∧ (create_booking demoRequest
      (mgrOk "Booking created successfully! Your ID: BK 0042")
      demoLedger).success = true := by
  decide

/-- C2 (amended): whenever the create endpoint delivers a booking
identifier at all, that identifier was recovered from the manager prose
by pattern-matching: the message contains the success phrase, and the
identifier is a substring of the message of the shape BK followed by
four digits. -/
theorem create_id_recovered_by_pattern (request : BookingRequest)
    (manager : BookingFields → Except String String)
    (bookings : List (String × Details)) (result s : String)
    (hm : manager (bookingDataOf request) = Except.ok result)
    (hid : (create_booking request manager bookings).booking_id = some s) :
    strContains result "Booking created successfully" = true
  ∧ strContains result s = true
  ∧ ∃ a b c d : Char,
      (a.isDigit && b.isDigit && c.isDigit && d.isDigit) = true ∧
      s.data = ['B', 'K', a, b, c, d] := by
  rw [create_booking, hm] at hid
  by_cases hp : strContains result "Booking created successfully" = true
  · simp only [hp, if_true] at hid
    obtain ⟨h1, h2⟩ := bkSearch_found result.data s hid
    exact ⟨hp, h1, h2⟩
  · simp only [Bool.not_eq_true] at hp
    simp [hp] at hid

/-- C2 witness: `create_id_recovered_by_pattern` applied to a concrete
successful creation message. -/
theorem create_id_recovered_by_pattern_w :
    strContains "Booking created successfully! Your ID: BK0042"
      "Booking created successfully" = true
  ∧ strContains "Booking created successfully! Your ID: BK0042"
      "BK0042" = true := by
  have h := create_id_recovered_by_pattern demoRequest
    (mgrOk "Booking created successfully! Your ID: BK0042") demoLedger
    "Booking created successfully! Your ID: BK0042" "BK0042"
    rfl (by decide)
  exact ⟨h.1, h.2.1⟩

/-- C3 counterexample: the claim that the numeric values delivered by the
stats endpoint are never obtained by parsing a formatted text rendering
fails on `get_stats`: the total is read back out of the text, and a
purely textual change of the header line (upper case) zeroes the
delivered numbers. -/
theorem stats_parsed_from_text_cex :
    (get_stats (Except.ok "Booking Statistics\nTotal Bookings: 5")).total_bookings = 5
  ∧ (get_stats (Except.ok "BOOKING STATISTICS\nTotal Bookings: 5")).total_bookings = 0
  ∧ ("Booking Statistics\nTotal Bookings: 5" : String)
      ≠ "BOOKING STATISTICS\nTotal Bookings: 5" := by
  decide

/-- C3 (amended): the stats endpoint obtains every numeric value by
parsing the formatted text returned by the manager: a result without the
marker Booking Statistics yields the all-zero record, and a well-formed
rendering has each number read back out of its labelled line. -/
theorem stats_values_obtained_by_parsing (result : String)
    (h : strContains result "Booking Statistics" = false) :
    get_stats (Except.ok result) = zeroStats
  ∧ get_stats (Except.ok demoStatsText) =
      { zeroStats with
        total_bookings := 5, confirmed_bookings := 3,
        cancelled_bookings := 2, total_guests := 7, today_bookings := 1,
        success_rate := 60 } := by
  constructor
  · simp [get_stats, h]
  · decide

/-- C3 witness: `stats_values_obtained_by_parsing` applied to a
marker-free manager result. -/
theorem stats_values_obtained_by_parsing_w :
    get_stats (Except.ok "no statistics available") = zeroStats := by
  exact (stats_values_obtained_by_parsing "no statistics available"
    (by decide)).1

/-- C4: every internal error raised while processing a chat utterance is
caught at the chat endpoint and converted into the fixed user-facing
apologetic reply with success false and the original session id; the
handler is a total function of its inputs, so no internal error
propagates as an unhandled fault to the transport layer. -/
theorem chat_errors_converted (message : String) (session_id : Option String)
    (generated_id : String) (process : String → Except String String) :
    (∃ r : ChatResponse,
        chat_with_bot message session_id generated_id process = r)
  ∧ ∀ e : String, process message = Except.error e →
      chat_with_bot message session_id generated_id process =
        { response := "I'm sorry, I encountered an error processing your request. Please try again."
          session_id := session_id, success := false, error := some e } := by
  refine ⟨⟨_, rfl⟩, ?_⟩
  intro e he
  simp [chat_with_bot, he]

/-- C4 witness: `chat_errors_converted` applied to a processing function
that raises. -/
theorem chat_errors_converted_w :
    chat_with_bot "book a table" (some "s1") "generated-uuid"
      (fun _ => Except.error "boom") =
      { response := "I'm sorry, I encountered an error processing your request. Please try again."
        session_id := some "s1", success := false, error := some "boom" } :=
  (chat_errors_converted "book a table" (some "s1") "generated-uuid"
    (fun _ => Except.error "boom")).2 "boom" rfl

/-- C5: for every ledger, the spec-modelled `stats` reports
`success_rate` equal to `confirmed_count / total * 100` with the
`total = 0` case explicitly 0, and on the empty ledger it succeeds (it is
a total function) with `success_rate` 0. -/
theorem stats_success_rate_formula (ledger : List (String × Details))
    (today : String) :
    (stats ledger today).success_rate =
      (if (stats ledger today).total = 0 then 0
       else ((stats ledger today).confirmed_count : ℚ)
              / ((stats ledger today).total : ℚ) * 100)
  ∧ (stats [] today).success_rate = 0
  ∧ (stats [] today).total = 0 := by
  exact ⟨rfl, rfl, rfl⟩

/-- C6: for every ledger, the spec-modelled `search` returns the empty
sequence on the empty query, never the full ledger dump. -/
theorem search_empty_query (ledger : List (String × Details)) :
    searchLedger ledger "" = [] := by
  simp [searchLedger]

/-- C7 counterexample: the claim fails on a supplied empty-string status
filter: the endpoint returns the whole demo ledger although no booking
in it has a status matching the supplied status. -/
theorem list_empty_status_filter_cex :
    (list_bookings demoLedger (some "") none).bookings = demoLedger
  ∧ demoLedger ≠ []
  ∧ demoLedger.filter
      (fun b => strLower b.2.status == strLower "") = [] := by
  decide

/-- C7 (amended): the list endpoint returns exactly the bookings passing
the filters, in ledger insertion order (a sublist of the ledger), with
`total_count` their number; a filter that is omitted or supplied as the
empty string imposes no constraint, a non-empty status filter selects by
case-insensitive status equality, and a non-empty date filter by exact
date equality. -/
theorem list_bookings_filter_semantics (ledger : List (String × Details))
    (status date : Option String) :
    List.Sublist (list_bookings ledger status date).bookings ledger
  ∧ (∀ b : String × Details,
      b ∈ (list_bookings ledger status date).bookings ↔
        (b ∈ ledger
         ∧ (status = none ∨ status = some "" ∨
             ∃ s, status = some s ∧ strLower b.2.status = strLower s)
         ∧ (date = none ∨ date = some "" ∨
             ∃ dt, date = some dt ∧ b.2.date = dt))) := by
  constructor
  · exact List.filter_sublist ledger
  · intro b
    constructor
    · intro hb
      have := List.mem_filter.mp hb
      exact ⟨this.1, (passFilters_iff status date b.2).mp this.2⟩
    · intro hb
      exact List.mem_filter.mpr
        ⟨hb.1, (passFilters_iff status date b.2).mpr hb.2⟩

/-- C7 witness: `list_bookings_filter_semantics` applied to the demo
ledger with a non-empty, differently cased status filter. -/
theorem list_bookings_filter_semantics_w :
    ("BK0001", demoDetails)
      ∈ (list_bookings demoLedger (some "CONFIRMED") none).bookings := by
  have h := list_bookings_filter_semantics demoLedger (some "CONFIRMED") none
  exact (h.2 ("BK0001", demoDetails)).mpr
    ⟨by decide, Or.inr (Or.inr ⟨"CONFIRMED", rfl, by decide⟩), Or.inl rfl⟩

/-- C8: the get endpoint returns the stored record with success true when
the identifier is in the ledger, and a structured not-found failure
response (no unhandled fault: the handler is a total pure read that does
not modify the ledger) when it is absent. -/
theorem get_booking_result (ledger : List (String × Details))
    (booking_id : String) :
    (∀ d : Details, lookupId ledger booking_id = some d →
        get_booking ledger booking_id =
          { booking_id := some booking_id, success := true
            message := "Booking details retrieved successfully"
            booking_data := some d })
  ∧ (lookupId ledger booking_id = none →
        get_booking ledger booking_id =
          { success := false
            message := "Booking " ++ booking_id ++ " not found"
            error := some "Booking not found" }) := by
  constructor
  · intro d hd; simp [get_booking, hd]
  · intro hn; simp [get_booking, hn]

/-- C8 witness: `get_booking_result` applied to the demo ledger at a
present and at an absent identifier. -/
theorem get_booking_result_w :
    get_booking demoLedger "BK0001" =
      { booking_id := some "BK0001", success := true
        message := "Booking details retrieved successfully"
        booking_data := some demoDetails }
  ∧ get_booking demoLedger "BK9999" =
      { success := false, message := "Booking BK9999 not found"
        error := some "Booking not found" } := by
  refine ⟨(get_booking_result demoLedger "BK0001").1 demoDetails (by decide), ?_⟩
  exact (get_booking_result demoLedger "BK9999").2 (by decide)

/-- C9: the field set the create endpoint hands to the creation routine
carries `guests` as the decimal-string rendering of the integer request
field, copies the identity and scheduling fields verbatim, and turns an
omitted `special_requirements` into the empty string. -/
theorem booking_fields_conversion (request : BookingRequest) :
    (bookingDataOf request).guests = toString request.guests
  ∧ (request.special_requirements = none →
      (bookingDataOf request).special_requirements = "")
  ∧ (bookingDataOf request).name = request.name
  ∧ (bookingDataOf request).contact = request.contact
  ∧ (bookingDataOf request).date = request.date
  ∧ (bookingDataOf request).time = request.time := by
  refine ⟨rfl, ?_, rfl, rfl, rfl, rfl⟩
  intro h
  simp [bookingDataOf, h]

/-- C9 witness: `booking_fields_conversion` applied to the demo request
(two guests, no special requirements). -/
theorem booking_fields_conversion_w :
    (bookingDataOf demoRequest).guests = "2"
  ∧ (bookingDataOf demoRequest).special_requirements = "" := by
  have h := booking_fields_conversion demoRequest
  refine ⟨?_, h.2.1 rfl⟩
  rw [h.1]
  decide

/-- C10: in the create endpoint, the success flag is substring
containment of the fixed phrase in the manager message, a non-null
booking id requires both that phrase and a BK-plus-four-digits pattern
in the message, a null id forces null booking data, and the bare phrase
alone yields success true with null id and null data. -/
theorem create_response_substring_flags (request : BookingRequest)
    (manager : BookingFields → Except String String)
    (bookings : List (String × Details)) (result : String)
    (hm : manager (bookingDataOf request) = Except.ok result) :
    ((create_booking request manager bookings).success = true ↔
       strContains result "Booking created successfully" = true)
  ∧ ((create_booking request manager bookings).booking_id.isSome = true →
       strContains result "Booking created successfully" = true
       ∧ (bkSearch result.data).isSome = true)
  ∧ ((create_booking request manager bookings).booking_id = none →
       (create_booking request manager bookings).booking_data = none)
  ∧ (create_booking request (mgrOk "Booking created successfully")
       bookings).success = true
  ∧ (create_booking request (mgrOk "Booking created successfully")
       bookings).booking_id = none
  ∧ (create_booking request (mgrOk "Booking created successfully")
       bookings).booking_data = none := by
  have hphrase : strContains "Booking created successfully"
      "Booking created successfully" = true := by decide
  have hnone : bkSearch ("Booking created successfully" : String).data
      = none := by decide
  by_cases hp : strContains result "Booking created successfully" = true
  · refine ⟨by simp [create_booking, hm, hp], ?_, ?_, ?_, ?_, ?_⟩
    · intro hs
      refine ⟨hp, ?_⟩
      simp only [create_booking, hm, hp, if_true] at hs
      exact hs
    · intro hid
      simp only [create_booking, hm, hp, if_true] at hid ⊢
      simp [hid]
    · simp [create_booking, mgrOk, hphrase]
    · simp [create_booking, mgrOk, hphrase, hnone]
    · simp [create_booking, mgrOk, hphrase, hnone]
  · have hp2 : strContains result "Booking created successfully" = false := by
      simpa using hp
    refine ⟨by simp [create_booking, hm, hp2], ?_, ?_, ?_, ?_, ?_⟩
    · intro hs
      simp [create_booking, hm, hp2] at hs
    · intro _
      simp [create_booking, hm, hp2]
    · simp [create_booking, mgrOk, hphrase]
    · simp [create_booking, mgrOk, hphrase, hnone]
    · simp [create_booking, mgrOk, hphrase, hnone]

/-- C10 witness: `create_response_substring_flags` applied to a message
carrying both the phrase and an identifier pattern. -/
theorem create_response_substring_flags_w :
    strContains "Booking created successfully! ID BK0042"
      "Booking created successfully" = true
  ∧ (bkSearch ("Booking created successfully! ID BK0042" : String).data).isSome
      = true := by
  have h := create_response_substring_flags demoRequest
    (mgrOk "Booking created successfully! ID BK0042") demoLedger
    "Booking created successfully! ID BK0042" rfl
  exact h.2.1 (by decide)

end AIBot
